import Mathlib

/-!
Shallow embedding of the inventory-system front end (React/TypeScript client).

The embedding covers the pieces of the client that the specification talks
about:

* the URL publish/parse pair of the Products page (`updateUrlParams` and the
  URL-initialization effect),
* the debounced search handler and the filter/page handlers of the Products
  page, including the closure captured when `handleSearchChange` is memoized,
* the TanStack-query cache patches applied by the `useCreateProduct`,
  `useUpdateProduct` and `useDeleteProduct` hooks,
* the zustand product store's `fetchProducts` action,
* the client-side validation rules of `CreateProductModal`.

JavaScript numbers are modelled by `JSNum`: either `NaN` or a natural-number
value.  The numbers that flow through the modelled code paths are non-negative
integer numerals (page numbers, counts, the integer prices exercised by the
claims), plus the `NaN` produced by `parseInt`/`parseFloat` on malformed
input; `natToStr`/`parseIntJS` model `Number.prototype.toString` and
`parseInt`/`parseFloat` restricted to such numerals (both JS functions agree
with the model there: they read the longest leading digit prefix and yield
`NaN` when there is none).
-/

namespace InventorySpec

/-- JavaScript number as it occurs in the modelled flows: `NaN` or a
non-negative integer value. -/
inductive JSNum where
  | nan : JSNum
  | num : ℕ → JSNum
  deriving DecidableEq, Repr

/-- Little-endian decimal digits of `n`, with explicit fuel (the fuel makes
the recursion structural; `natDigits` instantiates the fuel with `n`, which
is always enough). -/
def natDigitsAux : ℕ → ℕ → List ℕ
  | 0, _ => []
  | _ + 1, 0 => []
  | fuel + 1, n + 1 => ((n + 1) % 10) :: natDigitsAux fuel ((n + 1) / 10)

/-- Little-endian decimal digits of `n` (empty for `0`). -/
def natDigits (n : ℕ) : List ℕ := natDigitsAux n n

/-- Value of a little-endian list of decimal digits. -/
def digitsVal : List ℕ → ℕ
  | [] => 0
  | d :: ds => d + 10 * digitsVal ds

/-- Character for a single decimal digit. -/
def digitChar : ℕ → Char
  | 0 => '0' | 1 => '1' | 2 => '2' | 3 => '3' | 4 => '4'
  | 5 => '5' | 6 => '6' | 7 => '7' | 8 => '8' | _ => '9'

/-- Decimal digit denoted by a character (meaningful on digit characters). -/
def charToDigit (c : Char) : ℕ := c.toNat - 48

/-- Rendering of a JS number by `Number.prototype.toString` (restricted to
the non-negative integers of the modelled flows). -/
def natToStr (n : ℕ) : String :=
  if n = 0 then "0" else String.mk (((natDigits n).map digitChar).reverse)

/-- Rendering of a `JSNum`, as `toString` produces it (`NaN` prints as
`"NaN"`). -/
def numToString : JSNum → String
  | JSNum.nan => "NaN"
  | JSNum.num n => natToStr n

/-- Model of JavaScript `parseInt(s, 10)`: read the longest leading digit
prefix; `NaN` when there is none. -/
def parseIntJS (s : String) : JSNum :=
  let ds := s.data.takeWhile Char.isDigit
  if ds.isEmpty then JSNum.nan
  else JSNum.num (digitsVal ((ds.map charToDigit).reverse))

/-- Model of JavaScript `parseFloat`: on the integer numerals (and arbitrary
non-numeric strings) occurring in the modelled flows it behaves exactly like
`parseInt(s, 10)`. -/
def parseFloatJS (s : String) : JSNum := parseIntJS s

lemma digitsVal_natDigitsAux : ∀ (fuel n : ℕ), n ≤ fuel →
    digitsVal (natDigitsAux fuel n) = n := by
  intro fuel
  induction fuel with
  | zero =>
    intro n hn
    interval_cases n
    simp [natDigitsAux, digitsVal]
  | succ f ih =>
    intro n hn
    cases n with
    | zero => simp [natDigitsAux, digitsVal]
    | succ m =>
      have hdiv : (m + 1) / 10 ≤ f := by
        have h1 : (m + 1) / 10 < m + 1 := Nat.div_lt_self (Nat.succ_pos m) (by omega)
        omega
      simp only [natDigitsAux, digitsVal, ih _ hdiv]
      omega

lemma digitsVal_natDigits (n : ℕ) : digitsVal (natDigits n) = n :=
  digitsVal_natDigitsAux n n le_rfl

lemma natDigitsAux_lt : ∀ (fuel n : ℕ), ∀ d ∈ natDigitsAux fuel n, d < 10 := by
  intro fuel
  induction fuel with
  | zero => intro n d hd; simp [natDigitsAux] at hd
  | succ f ih =>
    intro n d hd
    cases n with
    | zero => simp [natDigitsAux] at hd
    | succ m =>
      simp only [natDigitsAux, List.mem_cons] at hd
      rcases hd with h | h
      · omega
      · exact ih _ _ h

lemma natDigits_ne_nil {n : ℕ} (hn : n ≠ 0) : natDigits n ≠ [] := by
  cases n with
  | zero => exact absurd rfl hn
  | succ m => simp [natDigits, natDigitsAux]

lemma isDigit_digitChar {d : ℕ} (hd : d < 10) : (digitChar d).isDigit = true := by
  interval_cases d <;> rfl

lemma charToDigit_digitChar {d : ℕ} (hd : d < 10) : charToDigit (digitChar d) = d := by
  interval_cases d <;> rfl

lemma takeWhile_eq_self_of_all {α : Type} {p : α → Bool} :
    ∀ {l : List α}, (∀ a ∈ l, p a = true) → l.takeWhile p = l := by
  intro l
  induction l with
  | nil => intro _; rfl
  | cons a l ih =>
    intro h
    simp only [List.takeWhile_cons, h a (List.mem_cons_self a l), ih
      (fun b hb => h b (List.mem_cons_of_mem a hb)), if_true]

/-- Printing a natural with `toString` and re-reading it with
`parseInt`/`parseFloat` recovers the number: the numeric core of the URL
round-trip law. -/
theorem parseIntJS_natToStr (n : ℕ) : parseIntJS (natToStr n) = JSNum.num n := by
  by_cases hn : n = 0
  · subst hn; rfl
  · have hdig : ∀ c ∈ ((natDigits n).map digitChar).reverse, c.isDigit = true := by
      intro c hc
      rw [List.mem_reverse] at hc
      rcases List.mem_map.mp hc with ⟨d, hd, rfl⟩
      exact isDigit_digitChar (natDigitsAux_lt n n d hd)
    have hne : ((natDigits n).map digitChar).reverse ≠ [] := by
      simp [natDigits_ne_nil hn]
    unfold parseIntJS natToStr
    rw [if_neg hn]
    simp only [String.data]
    rw [takeWhile_eq_self_of_all hdig]
    rw [if_neg (by simpa [List.isEmpty_iff] using hne)]
    congr 1
    rw [List.map_reverse, List.reverse_reverse, List.map_map]
    have hmap : (natDigits n).map (charToDigit ∘ digitChar) = (natDigits n).map id :=
      List.map_congr_left (fun d hd => charToDigit_digitChar (natDigitsAux_lt n n d hd))
    rw [hmap, List.map_id, digitsVal_natDigits]

/-- The `ProductFilters` record of `src/types` — every field optional
(TypeScript `undefined` is `none`). -/
structure ProductFilters where
  search : Option String
  category : Option String
  minPrice : Option JSNum
  maxPrice : Option JSNum
  inStock : Option Bool
  deriving DecidableEq, Repr

/-- JS truthiness of an optional string: `undefined` and `''` are falsy. -/
def strTruthy : Option String → Bool
  | some s => s != ""
  | none => false

/-- JS truthiness of an optional boolean: `undefined` and `false` are falsy. -/
def boolTruthy : Option Bool → Bool
  | some b => b
  | none => false

/-- `URLSearchParams` restricted to the six keys the Products page uses; a
field is `none` when the key is absent from the query string. -/
structure UrlParams where
  search : Option String
  category : Option String
  minPrice : Option String
  maxPrice : Option String
  inStock : Option String
  page : Option String
  deriving DecidableEq, Repr

/-- Empty `URLSearchParams` (`new URLSearchParams()`). -/
def emptyParams : UrlParams :=
  { search := none, category := none, minPrice := none, maxPrice := none
    inStock := none, page := none }

/-- `updateUrlParams` of the Products page: starting from fresh params, set
`search`/`category` when truthy, `minPrice`/`maxPrice` whenever not
`undefined` (rendered with `toString`), `inStock = 'true'` when truthy, and
`page` only when it is greater than 1. -/
def updateUrlParams (filters : ProductFilters) (page : ℕ) : UrlParams :=
  { search := if strTruthy filters.search then filters.search else none
    category := if strTruthy filters.category then filters.category else none
    minPrice := filters.minPrice.map numToString
    maxPrice := filters.maxPrice.map numToString
    inStock := if boolTruthy filters.inStock then some "true" else none
    page := if 1 < page then some (natToStr page) else none }

/-- The three state updates performed by the URL-initialization effect of the
Products page (`setLocalSearchValue`, `setFilters`, `setCurrentPage`). -/
structure InitResult where
  localSearchValue : String
  filters : ProductFilters
  page : JSNum
  deriving DecidableEq, Repr

/-- The mount-time URL-initialization effect of the Products page: reads the
six recognized parameters with `get(k) || ''` for the strings,
`get(k) ? parseFloat(get(k)) : undefined` for the prices,
`get('inStock') === 'true' ? true : undefined` for the flag, and
`parseInt(get('page') || '1', 10)` for the page; then commits
`search: searchFromUrl || undefined` and `category: categoryFromUrl ||
undefined` into the filter record. -/
def initFromUrl (u : UrlParams) : InitResult :=
  let searchFromUrl := u.search.getD ""
  let categoryFromUrl := u.category.getD ""
  let minPriceFromUrl :=
    if strTruthy u.minPrice then some (parseFloatJS (u.minPrice.getD "")) else none
  let maxPriceFromUrl :=
    if strTruthy u.maxPrice then some (parseFloatJS (u.maxPrice.getD "")) else none
  let inStockFromUrl := if u.inStock = some "true" then some true else none
  let pageFromUrl := parseIntJS (if strTruthy u.page then u.page.getD "" else "1")
  { localSearchValue := searchFromUrl
    filters :=
      { search := if searchFromUrl != "" then some searchFromUrl else none
        category := if categoryFromUrl != "" then some categoryFromUrl else none
        minPrice := minPriceFromUrl
        maxPrice := maxPriceFromUrl
        inStock := inStockFromUrl }
    page := pageFromUrl }

lemma natToStr_ne_empty (n : ℕ) : natToStr n ≠ "" := by
  by_cases hn : n = 0
  · subst hn; simp [natToStr]
  · unfold natToStr
    rw [if_neg hn]
    intro h
    have : ((natDigits n).map digitChar).reverse = [] := by
      have := congrArg String.data h
      simpa using this
    simp [natDigits_ne_nil hn] at this

lemma parseIntJS_one : parseIntJS "1" = JSNum.num 1 := by decide

/-- C1 — URL round-trip law: for every valid committed `CanonicalUIState`
(filter set plus page: nonempty committed strings, integer-valued prices, the
in-stock flag absent or `true`, and a page number at least 1), re-parsing the
URL produced by `updateUrlParams` with the URL-initialization effect yields
the same search, category, minPrice, maxPrice, inStock and page, with the
`page` key omitted from the URL exactly when the page equals 1. -/
theorem url_roundtrip (f : ProductFilters) (p : ℕ)
    (hsearch : ∀ s, f.search = some s → s ≠ "")
    (hcat : ∀ s, f.category = some s → s ≠ "")
    (hmin : ∀ x, f.minPrice = some x → ∃ n, x = JSNum.num n)
    (hmax : ∀ x, f.maxPrice = some x → ∃ n, x = JSNum.num n)
    (hstock : f.inStock = none ∨ f.inStock = some true)
    (hp : 1 ≤ p) :
    (initFromUrl (updateUrlParams f p)).filters = f ∧
    (initFromUrl (updateUrlParams f p)).page = JSNum.num p ∧
    ((updateUrlParams f p).page = none ↔ p = 1) := by
  obtain ⟨os, oc, omin, omax, ost⟩ := f
  refine ⟨?_, ?_, ?_⟩
  · simp only [initFromUrl, updateUrlParams, ProductFilters.mk.injEq]
    refine ⟨?_, ?_, ?_, ?_, ?_⟩
    · rcases os with _ | s
      · simp [strTruthy]
      · have hs : s ≠ "" := hsearch s rfl
        simp [strTruthy, hs]
    · rcases oc with _ | s
      · simp [strTruthy]
      · have hs : s ≠ "" := hcat s rfl
        simp [strTruthy, hs]
    · rcases omin with _ | x
      · simp [strTruthy]
      · obtain ⟨n, rfl⟩ := hmin x rfl
        simp [strTruthy, numToString, natToStr_ne_empty n, parseFloatJS,
          parseIntJS_natToStr]
    · rcases omax with _ | x
      · simp [strTruthy]
      · obtain ⟨n, rfl⟩ := hmax x rfl
        simp [strTruthy, numToString, natToStr_ne_empty n, parseFloatJS,
          parseIntJS_natToStr]
    · rcases hstock with h | h <;> subst h
      · simp [boolTruthy]
      · simp [boolTruthy]
  · simp only [initFromUrl, updateUrlParams]
    by_cases hp1 : 1 < p
    · simp [hp1, strTruthy, natToStr_ne_empty p, parseIntJS_natToStr]
    · have : p = 1 := by omega
      subst this
      simp [strTruthy, parseIntJS_one]
  · simp only [updateUrlParams]
    by_cases hp1 : 1 < p
    · simp [hp1]; omega
    · have : p = 1 := by omega
      subst this
      simp

/-- C1 witness: a concrete fully populated state (search `"usb"`, category
`"Books"`, price range 5–20, in-stock only, page 3) round-trips through the
URL, and page 1 drops the `page` key. -/
theorem url_roundtrip_witness :
    (initFromUrl (updateUrlParams
      { search := some "usb", category := some "Books",
        minPrice := some (JSNum.num 5), maxPrice := some (JSNum.num 20),
        inStock := some true } 3)).filters =
      { search := some "usb", category := some "Books",
        minPrice := some (JSNum.num 5), maxPrice := some (JSNum.num 20),
        inStock := some true } ∧
    (initFromUrl (updateUrlParams
      { search := some "usb", category := some "Books",
        minPrice := some (JSNum.num 5), maxPrice := some (JSNum.num 20),
        inStock := some true } 3)).page = JSNum.num 3 := by
  have h := url_roundtrip
    { search := some "usb", category := some "Books",
      minPrice := some (JSNum.num 5), maxPrice := some (JSNum.num 20),
      inStock := some true } 3
    (by intro s hs; cases hs; decide)
    (by intro s hs; cases hs; decide)
    (by intro x hx; cases hx; exact ⟨5, rfl⟩)
    (by intro x hx; cases hx; exact ⟨20, rfl⟩)
    (Or.inr rfl)
    (by decide)
  exact ⟨h.1, h.2.1⟩

/-- The `Product` record of `src/types` (timestamps kept as raw strings). -/
structure Product where
  _id : String
  name : String
  description : Option String
  sku : String
  category : String
  price : JSNum
  quantity : ℕ
  minStockLevel : ℕ
  images : List String
  isActive : Bool
  userId : String
  createdAt : String
  updatedAt : String
  deriving DecidableEq, Repr

/-- Pagination block of a products-list response.  `total` is an integer so
that `Math.max(0, total - 1)` can be written exactly as the hook writes it. -/
structure Pagination where
  page : ℕ
  limit : ℕ
  total : ℤ
  pages : ℕ
  deriving DecidableEq, Repr

/-- The filter record with every field `undefined` (`useState({})`). -/
def emptyFilters : ProductFilters :=
  { search := none, category := none, minPrice := none, maxPrice := none
    inStock := none }

/-- The `itemsPerPage` constant of the Products page. -/
def itemsPerPage : ℕ := 10

/-- The memoized `totalPages` of the Products page:
`Math.ceil((pagination?.total || 0) / itemsPerPage)` (totals are
non-negative, so `toNat` is exact on them). -/
def totalPagesOf (total : ℤ) : ℕ := (total.toNat + itemsPerPage - 1) / itemsPerPage

/-- Component state of the Products page that the modelled handlers read and
write: the raw search-box value, the committed filter record, the current
page, the current URL query params, the pending debounce commit (the text of
the `setTimeout` callback that has not fired yet; every keystroke replaces it
via `clearTimeout`/`setTimeout`), a counter of fired debounce commits, and
the delete-modal state. -/
structure PageState where
  localSearchValue : String
  filters : ProductFilters
  currentPage : ℕ
  url : UrlParams
  pendingSearch : Option String
  commits : ℕ
  isDeleteModalOpen : Bool
  productToDelete : Option Product
  deriving DecidableEq, Repr

/-- The Products page state right after mount with an empty URL. -/
def initialPageState : PageState :=
  { localSearchValue := "", filters := emptyFilters, currentPage := 1
    url := emptyParams, pendingSearch := none, commits := 0
    isDeleteModalOpen := false, productToDelete := none }

/-- `handleSearchChange` of the Products page: record the raw text for the
input echo, clear any pending timeout and schedule a commit of this text
after the 300 ms delay.  (Nothing is committed here.) -/
def handleSearchChange (st : PageState) (value : String) : PageState :=
  { st with localSearchValue := value, pendingSearch := some value }

/-- Firing of the debounce timeout scheduled by `handleSearchChange`: the
callback merges the pending text into `captured`, the filter record that the
`useCallback` closure captured when it was memoized (its dependency array is
`[updateUrlParams]` only, so it does not track the live filters), resets the
page to 1 and rewrites the URL.  No-op when no commit is pending. -/
def fireSearchDebounce (captured : ProductFilters) (st : PageState) : PageState :=
  match st.pendingSearch with
  | none => st
  | some value =>
    let newFilters := { captured with search := some value }
    { st with filters := newFilters, currentPage := 1
              url := updateUrlParams newFilters 1
              pendingSearch := none, commits := st.commits + 1 }

/-- `handleFiltersChange` of the Products page (the FilterDropdown
submission path): replace the filter record, reset the page to 1 and rewrite
the URL.  It does not touch the pending debounce timeout. -/
def handleFiltersChange (st : PageState) (newFilters : ProductFilters) : PageState :=
  { st with filters := newFilters, currentPage := 1
            url := updateUrlParams newFilters 1 }

/-- `handlePageChange` of the Products page: store the requested page and
rewrite the URL with it.  The argument is not clamped here. -/
def handlePageChange (st : PageState) (page : ℕ) : PageState :=
  { st with currentPage := page, url := updateUrlParams st.filters page }

/-- `handleGoToPage` forwards the requested page to `handlePageChange`
unchanged. -/
def handleGoToPage (st : PageState) (page : ℕ) : PageState :=
  handlePageChange st page

/-- `handlePreviousPage`: `Math.max(1, currentPage - 1)` then
`handlePageChange`. -/
def handlePreviousPage (st : PageState) : PageState :=
  handlePageChange st (max 1 (st.currentPage - 1))

/-- `handleNextPage`: `Math.min(totalPages, currentPage + 1)` then
`handlePageChange`. -/
def handleNextPage (st : PageState) (totalPages : ℕ) : PageState :=
  handlePageChange st (min totalPages (st.currentPage + 1))

/-- Success path of `handleDeleteConfirm` of the Products page (the code run
after `mutateAsync` resolves): close the modal, clear the selection, and if
the rendered list captured by the callback had exactly one row while the
current page is above 1, step back one page and rewrite the URL. -/
def handleDeleteConfirmSuccess (st : PageState) (productsShown : List Product) :
    PageState :=
  match st.productToDelete with
  | none => st
  | some _ =>
    let st1 := { st with isDeleteModalOpen := false, productToDelete := none }
    if productsShown.length = 1 ∧ 1 < st.currentPage then
      { st1 with currentPage := st.currentPage - 1
                 url := updateUrlParams st.filters (st.currentPage - 1) }
    else st1

lemma foldl_handleSearchChange (st : PageState) :
    ∀ (ts : List String) (h : ts ≠ []),
      (ts.foldl handleSearchChange st).pendingSearch = some (ts.getLast h) ∧
      (ts.foldl handleSearchChange st).commits = st.commits ∧
      (ts.foldl handleSearchChange st).filters = st.filters := by
  intro ts
  induction ts generalizing st with
  | nil => intro h; exact absurd rfl h
  | cons a ts ih =>
    intro _
    cases ts with
    | nil => exact ⟨rfl, rfl, rfl⟩
    | cons b ts =>
      have h2 : b :: ts ≠ [] := by simp
      have := ih (handleSearchChange st a) h2
      simpa [List.getLast] using this

/-- C2 — debounced search commit: a burst of `handleSearchChange` calls all
closer together than the 300 ms delay means no timeout fires inside the
burst (each keystroke cancels the previous timeout), and the single timeout
that survives fires once after the burst: exactly one commit happens, it
commits the final text of the burst into `FilterSet.search`, and it resets
the page number to 1. -/
theorem debounce_commits_last_text (captured : ProductFilters) (st : PageState)
    (ts : List String) (h : ts ≠ []) :
    (fireSearchDebounce captured (ts.foldl handleSearchChange st)).commits
        = st.commits + 1 ∧
    (fireSearchDebounce captured (ts.foldl handleSearchChange st)).filters.search
        = some (ts.getLast h) ∧
    (fireSearchDebounce captured (ts.foldl handleSearchChange st)).currentPage = 1 := by
  obtain ⟨hpend, hcomm, _⟩ := foldl_handleSearchChange st ts h
  unfold fireSearchDebounce
  rw [hpend]
  exact ⟨by simp [hcomm], rfl, rfl⟩

/-- C2 witness: the spec scenario — two keystrokes `"a"` then `"ab"` inside
one debounce window produce exactly one commit, with `search = "ab"` and
page 1. -/
theorem debounce_commits_last_text_witness :
    (fireSearchDebounce emptyFilters
        (List.foldl handleSearchChange initialPageState ["a", "ab"])).commits = 1 ∧
    (fireSearchDebounce emptyFilters
        (List.foldl handleSearchChange initialPageState ["a", "ab"])).filters.search
        = some "ab" ∧
    (fireSearchDebounce emptyFilters
        (List.foldl handleSearchChange initialPageState ["a", "ab"])).currentPage = 1 := by
  have h := debounce_commits_last_text emptyFilters initialPageState ["a", "ab"]
    (by simp)
  exact ⟨h.1, h.2.1, h.2.2⟩

/-- C10 counterexample: with the handler memoized over the initial (empty)
filter record, a keystroke `"x"`, then a filter-panel submission selecting
category `"Books"`, then the timer firing: at commit time the live category
is `some "Books"`, but the published state has category `none` — the commit
overwrote the panel submission with the captured record, refuting the
claimed frame property. -/
theorem debounce_commit_overwrites_panel_cex :
    (handleFiltersChange (handleSearchChange initialPageState "x")
        { emptyFilters with category := some "Books" }).filters.category
      = some "Books" ∧
    (fireSearchDebounce emptyFilters
        (handleFiltersChange (handleSearchChange initialPageState "x")
          { emptyFilters with category := some "Books" })).filters.category
      = none := by
  exact ⟨rfl, rfl⟩

/-- C10 (amended): the debounce commit publishes exactly
`{captured with search := final text}` — every non-search field comes from
the filter record captured when `handleSearchChange` was memoized, so a
`handleFiltersChange` submission applied between the keystroke and the timer
fire is overwritten by the commit (rather than preserved). -/
theorem debounce_commit_uses_captured_filters (captured : ProductFilters)
    (st : PageState) (value : String) (panelFilters : ProductFilters) :
    (fireSearchDebounce captured
        (handleFiltersChange (handleSearchChange st value) panelFilters)).filters
      = { captured with search := some value } ∧
    (fireSearchDebounce captured
        (handleFiltersChange (handleSearchChange st value) panelFilters)).currentPage
      = 1 := by
  exact ⟨rfl, rfl⟩

/-- C4 counterexample: with the last known pagination reporting 25 items
(3 pages of 10), requesting page 5 through `handleGoToPage` stores page 5 —
outside `[1, 3]` — so the claimed clamping does not happen. -/
theorem handlePageChange_no_clamp_cex :
    totalPagesOf 25 = 3 ∧
    (handleGoToPage initialPageState 5).currentPage = 5 ∧
    ¬(handleGoToPage initialPageState 5).currentPage ≤ totalPagesOf 25 := by
  refine ⟨rfl, rfl, by decide⟩

/-- C4 (amended): `handlePageChange` (and `handleGoToPage`, which forwards to
it) stores the requested page unchanged and rewrites the URL with it (the
`page` key present exactly when the stored page exceeds 1) — there is no
clamping to `[1, totalPages]` on this path; only `handlePreviousPage` clamps
below at 1 and `handleNextPage` clamps above at `totalPages`. -/
theorem handlePageChange_passthrough (st : PageState) (p : ℕ) (tp : ℕ) :
    (handlePageChange st p).currentPage = p ∧
    (handleGoToPage st p).currentPage = p ∧
    ((handlePageChange st p).url.page
        = if 1 < p then some (natToStr p) else none) ∧
    1 ≤ (handlePreviousPage st).currentPage ∧
    (handleNextPage st tp).currentPage ≤ max 1 tp := by
  refine ⟨rfl, rfl, rfl, ?_, ?_⟩
  · simp [handlePreviousPage, handlePageChange]
  · simp only [handleNextPage, handlePageChange]
    omega

/-- C4 amended witness: requesting page 7 with totalPages 3 stores page 7;
previous/next from that state stay inside the clamped bounds they enforce. -/
theorem handlePageChange_passthrough_witness :
    (handlePageChange initialPageState 7).currentPage = 7 ∧
    (handleGoToPage initialPageState 7).currentPage = 7 ∧
    ((handlePageChange initialPageState 7).url.page = some (natToStr 7)) ∧
    1 ≤ (handlePreviousPage initialPageState).currentPage ∧
    (handleNextPage initialPageState 3).currentPage ≤ max 1 3 := by
  have h := handlePageChange_passthrough initialPageState 7 3
  exact ⟨h.1, h.2.1, by rw [h.2.2.1]; rfl, h.2.2.2.1, h.2.2.2.2⟩

/-- C8 — delete-last-item page step-back: when a delete succeeds, the
rendered list captured by `handleDeleteConfirm` had exactly one row, and the
current page is above 1, the handler steps back one page and rewrites the
URL for the stepped-back page; the URL's `page` key is dropped exactly when
the new page is 1 (i.e. it stepped back from page 2). -/
theorem delete_last_item_steps_back (st : PageState) (productsShown : List Product)
    (prod : Product) (hsel : st.productToDelete = some prod)
    (hlen : productsShown.length = 1) (hpage : 1 < st.currentPage) :
    (handleDeleteConfirmSuccess st productsShown).currentPage
        = st.currentPage - 1 ∧
    (handleDeleteConfirmSuccess st productsShown).url
        = updateUrlParams st.filters (st.currentPage - 1) ∧
    ((handleDeleteConfirmSuccess st productsShown).url.page = none
        ↔ st.currentPage = 2) := by
  have heq : handleDeleteConfirmSuccess st productsShown =
      { st with isDeleteModalOpen := false, productToDelete := none
                currentPage := st.currentPage - 1
                url := updateUrlParams st.filters (st.currentPage - 1) } := by
    unfold handleDeleteConfirmSuccess
    rw [hsel]
    exact if_pos ⟨hlen, hpage⟩
  rw [heq]
  refine ⟨rfl, rfl, ?_⟩
  show (if 1 < st.currentPage - 1 then some (natToStr (st.currentPage - 1)) else none)
      = none ↔ st.currentPage = 2
  by_cases h2 : 1 < st.currentPage - 1
  · rw [if_pos h2]
    exact ⟨fun hx => (by cases hx), fun hx => absurd h2 (by omega)⟩
  · rw [if_neg h2]
    exact ⟨fun _ => (by omega), fun _ => rfl⟩

/-- A concrete product used by the delete-scenario witness. -/
def sampleProduct : Product :=
  { _id := "p1", name := "Widget", description := none, sku := "WID"
    category := "Other", price := JSNum.num 5, quantity := 2
    minStockLevel := 1, images := [], isActive := true, userId := "u1"
    createdAt := "2024-01-01", updatedAt := "2024-01-02" }

/-- The Products page about to confirm deletion of the sole row of page 3. -/
def deletePageState : PageState :=
  { initialPageState with
      currentPage := 3
      isDeleteModalOpen := true
      productToDelete := some sampleProduct }

/-- C8 witness: deleting the only row of page 3 steps back to page 2 and the
URL encodes page 2. -/
theorem delete_last_item_steps_back_witness :
    (handleDeleteConfirmSuccess deletePageState [sampleProduct]).currentPage = 2 ∧
    (handleDeleteConfirmSuccess deletePageState [sampleProduct]).url
      = updateUrlParams emptyFilters 2 := by
  have h := delete_last_item_steps_back deletePageState [sampleProduct]
    sampleProduct rfl rfl (by decide)
  exact ⟨h.1, h.2.1⟩

/-- C5 counterexample: on the query string `?minPrice=abc` the
URL-initialization effect stores `parseFloat('abc') = NaN` into
`filters.minPrice` — a present, non-absent value — refuting the claim that
every malformed value yields the absent ("no constraint") value. -/
theorem initFromUrl_malformed_minPrice_not_absent :
    (initFromUrl { emptyParams with minPrice := some "abc" }).filters.minPrice
      = some JSNum.nan ∧
    some JSNum.nan ≠ (none : Option JSNum) := by
  exact ⟨rfl, (by simp)⟩

/-- C5 (amended): the URL-initialization effect is total (it is a function;
no input raises), absent keys yield the absent filter value, and a
non-`'true'` `inStock` yields the absent value — but a present non-numeric
`minPrice`/`maxPrice` yields the present value `NaN` rather than the absent
value, and a present non-numeric `page` yields the page `NaN`. -/
theorem initFromUrl_total_lenient (u : UrlParams) :
    (u.search = none → (initFromUrl u).filters.search = none) ∧
    (u.category = none → (initFromUrl u).filters.category = none) ∧
    (u.minPrice = none → (initFromUrl u).filters.minPrice = none) ∧
    (u.inStock ≠ some "true" → (initFromUrl u).filters.inStock = none) ∧
    (∀ s, u.minPrice = some s → s ≠ "" → s.data.takeWhile Char.isDigit = [] →
      (initFromUrl u).filters.minPrice = some JSNum.nan) ∧
    (∀ s, u.maxPrice = some s → s ≠ "" → s.data.takeWhile Char.isDigit = [] →
      (initFromUrl u).filters.maxPrice = some JSNum.nan) ∧
    (∀ s, u.page = some s → s ≠ "" → s.data.takeWhile Char.isDigit = [] →
      (initFromUrl u).page = JSNum.nan) := by
  refine ⟨?_, ?_, ?_, ?_, ?_, ?_, ?_⟩
  · intro h; simp [initFromUrl, h]
  · intro h; simp [initFromUrl, h]
  · intro h; simp [initFromUrl, h, strTruthy]
  · intro h; simp [initFromUrl, h]
  · intro s hs hne hdig
    simp [initFromUrl, hs, strTruthy, hne, parseFloatJS, parseIntJS, hdig]
  · intro s hs hne hdig
    simp [initFromUrl, hs, strTruthy, hne, parseFloatJS, parseIntJS, hdig]
  · intro s hs hne hdig
    simp [initFromUrl, hs, strTruthy, hne, parseIntJS, hdig]

/-- A thoroughly malformed query string: `?minPrice=abc&maxPrice=xyz&`
`inStock=yes&page=last`, with no `search`/`category` keys. -/
def malformedUrlInput : UrlParams :=
  { search := none, category := none, minPrice := some "abc"
    maxPrice := some "xyz", inStock := some "yes", page := some "last" }

/-- C5 amended witness: the malformed query string above initializes without
error to absent search and inStock, `NaN` prices and a `NaN` page. -/
theorem initFromUrl_total_lenient_witness :
    (initFromUrl malformedUrlInput).filters.search = none ∧
    (initFromUrl malformedUrlInput).filters.inStock = none ∧
    (initFromUrl malformedUrlInput).filters.minPrice = some JSNum.nan ∧
    (initFromUrl malformedUrlInput).filters.maxPrice = some JSNum.nan ∧
    (initFromUrl malformedUrlInput).page = JSNum.nan := by
  have h := initFromUrl_total_lenient malformedUrlInput
  exact ⟨h.1 rfl, h.2.2.2.1 (by decide),
    h.2.2.2.2.1 "abc" rfl (by decide) (by decide),
    h.2.2.2.2.2.1 "xyz" rfl (by decide) (by decide),
    h.2.2.2.2.2.2 "last" rfl (by decide) (by decide)⟩

/-- A cached products-list entry: the `ProductsResponse` stored under one
list query key. -/
structure ListEntry where
  data : List Product
  pagination : Pagination
  deriving DecidableEq, Repr

/-- The part of the TanStack query cache the product hooks touch: the list
entries (one slot per list query key; `none` is a key whose cached data is
`undefined`, which every updater returns unchanged) and the detail entries
keyed by product id. -/
structure QueryCache where
  lists : List (Option ListEntry)
  details : List (String × Product)
  deriving DecidableEq, Repr

/-- The `setQueriesData` updater of `useDeleteProduct`'s `onSuccess`: drop
every record whose `_id` equals the deleted id and set the entry's total to
`Math.max(0, total - 1)`; an `undefined` entry is returned unchanged. -/
def deleteListUpdater (deletedId : String) : Option ListEntry → Option ListEntry
  | none => none
  | some oldData =>
      some { data := oldData.data.filter (fun p => p._id != deletedId)
             pagination := { oldData.pagination with
                               total := max 0 (oldData.pagination.total - 1) } }

/-- `removeQueries` on the detail key of a product id. -/
def removeDetailEntry (ds : List (String × Product)) (id : String) :
    List (String × Product) :=
  ds.filter (fun kv => kv.1 != id)

/-- `setQueryData` on a detail key: replace the entry when the key is
cached, otherwise add it. -/
def setDetailEntry (ds : List (String × Product)) (id : String) (p : Product) :
    List (String × Product) :=
  match ds with
  | [] => [(id, p)]
  | kv :: rest =>
      if kv.1 = id then (id, p) :: rest else kv :: setDetailEntry rest id p

/-- `onSuccess` of `useDeleteProduct`: evict the detail entry of the deleted
id and run the list updater over every cached list entry. -/
def deleteProductOnSuccess (c : QueryCache) (deletedId : String) : QueryCache :=
  { lists := c.lists.map (deleteListUpdater deletedId)
    details := removeDetailEntry c.details deletedId }

/-- The `setQueriesData` updater of `useUpdateProduct`'s `onSuccess`:
replace, in place, every record whose `_id` equals the updated product's
`_id`; pagination untouched. -/
def updateListUpdater (updatedProduct : Product) :
    Option ListEntry → Option ListEntry
  | none => none
  | some oldData =>
      some { oldData with
               data := oldData.data.map (fun p =>
                 if p._id = updatedProduct._id then updatedProduct else p) }

/-- `onSuccess` of `useUpdateProduct`: write the updated product into its
detail entry and run the replace updater over every cached list entry. -/
def updateProductOnSuccess (c : QueryCache) (updatedProduct : Product) :
    QueryCache :=
  { lists := c.lists.map (updateListUpdater updatedProduct)
    details := setDetailEntry c.details updatedProduct._id updatedProduct }

/-- The `setQueriesData` updater of `useCreateProduct`'s `onSuccess`:
prepend the new product to every cached entry and increment its total. -/
def createListUpdater (newProduct : Product) : Option ListEntry → Option ListEntry
  | none => none
  | some oldData =>
      some { data := newProduct :: oldData.data
             pagination := { oldData.pagination with
                               total := oldData.pagination.total + 1 } }

/-- `onSuccess` of `useCreateProduct`: run the insert updater over every
cached list entry (the list keys are also invalidated for refetch, which
does not change the cached data itself). -/
def createProductOnSuccess (c : QueryCache) (newProduct : Product) : QueryCache :=
  { lists := c.lists.map (createListUpdater newProduct)
    details := c.details }

/-- Outcome of a create/update mutation as the hooks see it: the product of
a success envelope, or the thrown message (transport failure or a
`success:false` envelope — both reach `onError`). -/
inductive MutationOutcome where
  | ok : Product → MutationOutcome
  | err : String → MutationOutcome
  deriving DecidableEq, Repr

/-- Outcome of the delete mutation (its `mutationFn` resolves to the id). -/
inductive DeleteOutcome where
  | ok : String → DeleteOutcome
  | err : String → DeleteOutcome
  deriving DecidableEq, Repr

/-- Settlement of `useCreateProduct`: `onSuccess` applies the insert patch
and raises a success toast; `onError` only raises the error toast.  Returns
the cache and the toast text. -/
def settleCreate (c : QueryCache) : MutationOutcome → QueryCache × String
  | MutationOutcome.ok p => (createProductOnSuccess c p, "Product created successfully!")
  | MutationOutcome.err m => (c, m)

/-- Settlement of `useUpdateProduct`. -/
def settleUpdate (c : QueryCache) : MutationOutcome → QueryCache × String
  | MutationOutcome.ok p => (updateProductOnSuccess c p, "Product updated successfully!")
  | MutationOutcome.err m => (c, m)

/-- Settlement of `useDeleteProduct`. -/
def settleDelete (c : QueryCache) : DeleteOutcome → QueryCache × String
  | DeleteOutcome.ok id => (deleteProductOnSuccess c id, "Product deleted successfully!")
  | DeleteOutcome.err m => (c, m)

/-- The zustand product store state (`ProductState` of `src/types`). -/
structure ProductStoreState where
  products : List Product
  currentProduct : Option Product
  isLoading : Bool
  error : Option String
  pagination : Pagination
  deriving DecidableEq, Repr

/-- Outcome of `apiService.getProducts` as `fetchProducts` sees it. -/
inductive FetchOutcome where
  | ok : List Product → Pagination → FetchOutcome
  | err : String → FetchOutcome
  deriving DecidableEq, Repr

/-- `fetchProducts` of the product store, from the synchronous
`set({isLoading: true, error: null})` through settlement: success stores the
items and pagination; any failure (transport error, or a `success:false`
envelope rethrown into the catch block) stores only the error message and
clears the loading flag, leaving products and pagination untouched. -/
def fetchProducts (st : ProductStoreState) : FetchOutcome → ProductStoreState
  | FetchOutcome.ok items pg =>
      { st with products := items, pagination := pg
                isLoading := false, error := none }
  | FetchOutcome.err msg =>
      { st with error := some msg, isLoading := false }

/-- C7 — failure atomicity: a failing fetch leaves the store's products and
pagination exactly as they were, only recording the error message and
clearing the loading flag; a failing create/update/delete mutation leaves
the whole query cache exactly as it was, only raising the error toast. -/
theorem failure_preserves_data (st : ProductStoreState) (c : QueryCache)
    (msg : String) :
    (fetchProducts st (FetchOutcome.err msg)).products = st.products ∧
    (fetchProducts st (FetchOutcome.err msg)).pagination = st.pagination ∧
    (fetchProducts st (FetchOutcome.err msg)).error = some msg ∧
    (fetchProducts st (FetchOutcome.err msg)).isLoading = false ∧
    (settleCreate c (MutationOutcome.err msg)).1 = c ∧
    (settleUpdate c (MutationOutcome.err msg)).1 = c ∧
    (settleDelete c (DeleteOutcome.err msg)).1 = c ∧
    (settleCreate c (MutationOutcome.err msg)).2 = msg := by
  exact ⟨rfl, rfl, rfl, rfl, rfl, rfl, rfl, rfl⟩

/-- A second concrete product, distinct from `sampleProduct`. -/
def sampleProduct2 : Product :=
  { sampleProduct with _id := "p2", name := "Gadget", sku := "GAD" }

/-- A cached list entry containing `sampleProduct` (id `p1`), total 5. -/
def entryWithP1 : ListEntry :=
  { data := [sampleProduct]
    pagination := { page := 1, limit := 10, total := 5, pages := 1 } }

/-- A cached list entry NOT containing id `p1` (only `p2`), total 7. -/
def otherEntry : ListEntry :=
  { data := [sampleProduct2]
    pagination := { page := 2, limit := 10, total := 7, pages := 1 } }

/-- C3 counterexample: a cached entry that does not contain the deleted id
`p1` still has its total decremented from 7 to 6 by the remove patch — the
claim says entries not containing the id keep their total unchanged. -/
theorem deletePatch_decrements_unaffected_entry_cex :
    otherEntry.data.all (fun p => p._id != "p1") = true ∧
    otherEntry.pagination.total = 7 ∧
    (deleteListUpdater "p1" (some otherEntry)).map (fun e => e.pagination.total)
      = some 6 := by
  exact ⟨by decide, rfl, rfl⟩

/-- C3 (amended): after the remove patch no cached list entry contains a
record with the deleted id, and EVERY cached (non-`undefined`) entry's total
— whether or not the entry contained the id — becomes
`max 0 (total - 1)`: it decreases by exactly 1 when positive and stays at 0
otherwise; `undefined` entries stay `undefined`; the detail entry for the id
is evicted. -/
theorem deletePatch_removes_id_everywhere (c : QueryCache) (deletedId : String) :
    (∀ oe ∈ (deleteProductOnSuccess c deletedId).lists, ∀ e, oe = some e →
      ∀ p ∈ e.data, p._id ≠ deletedId) ∧
    (deleteProductOnSuccess c deletedId).lists.length = c.lists.length ∧
    (∀ i e, c.lists.get? i = some (some e) →
      ∃ e2, (deleteProductOnSuccess c deletedId).lists.get? i = some (some e2) ∧
        (0 < e.pagination.total →
          e2.pagination.total = e.pagination.total - 1) ∧
        (e.pagination.total ≤ 0 → e2.pagination.total = 0)) ∧
    (∀ i, c.lists.get? i = some none →
      (deleteProductOnSuccess c deletedId).lists.get? i = some none) ∧
    (∀ kv ∈ (deleteProductOnSuccess c deletedId).details, kv.1 ≠ deletedId) := by
  refine ⟨?_, ?_, ?_, ?_, ?_⟩
  · intro oe hoe e hsome p hp
    rcases List.mem_map.mp hoe with ⟨x, _, rfl⟩
    rcases x with _ | old
    · cases hsome
    · simp only [deleteListUpdater, Option.some.injEq] at hsome
      subst hsome
      have := List.of_mem_filter hp
      simpa using this
  · simp [deleteProductOnSuccess]
  · intro i e hget
    refine ⟨(deleteListUpdater deletedId (some e)).getD { data := [], pagination := e.pagination }, ?_, ?_, ?_⟩
    · simp only [deleteProductOnSuccess, List.get?_map, hget, Option.map_some]
      rfl
    · intro hpos
      simp only [deleteListUpdater, Option.getD_some]
      omega
    · intro hneg
      simp only [deleteListUpdater, Option.getD_some]
      omega
  · intro i hget
    simp only [deleteProductOnSuccess, List.get?_map, hget, Option.map_some]
    rfl
  · intro kv hkv
    have := List.of_mem_filter hkv
    simpa using this

/-- A concrete query cache with two list entries around an `undefined` slot
and two detail entries. -/
def sampleCache : QueryCache :=
  { lists := [some entryWithP1, none, some otherEntry]
    details := [("p1", sampleProduct), ("p2", sampleProduct2)] }

/-- C3 amended witness: deleting `p1` from the concrete cache drops the
entry totals from 5 to 4, keeps the `undefined` slot, and evicts the `p1`
detail entry. -/
theorem deletePatch_removes_id_everywhere_witness :
    ((deleteProductOnSuccess sampleCache "p1").lists.get? 0).map
        (Option.map (fun e => e.pagination.total)) = some (some 4) ∧
    (deleteProductOnSuccess sampleCache "p1").lists.get? 1 = some none ∧
    (deleteProductOnSuccess sampleCache "p1").details.all
        (fun kv => kv.1 != "p1") = true := by
  have h := deletePatch_removes_id_everywhere sampleCache "p1"
  refine ⟨?_, h.2.2.2.1 1 rfl, ?_⟩
  · obtain ⟨e2, hget, hpos, _⟩ := h.2.2.1 0 entryWithP1 rfl
    have ht : e2.pagination.total = 4 := by rw [hpos (by decide)]; rfl
    rw [hget]
    simp [ht]
  · rw [List.all_eq_true]
    intro kv hkv
    simpa using h.2.2.2.2 kv hkv

lemma lookup_setDetailEntry (id : String) (p : Product) :
    ∀ ds, List.lookup id (setDetailEntry ds id p) = some p := by
  intro ds
  induction ds with
  | nil => simp [setDetailEntry, List.lookup]
  | cons kv rest ih =>
    obtain ⟨k, v⟩ := kv
    by_cases h : k = id
    · subst h
      simp [setDetailEntry, List.lookup]
    · have hne : (id == k) = false := by
        simp only [beq_eq_false_iff_ne, ne_eq]
        exact fun hx => h hx.symm
      simp [setDetailEntry, h, List.lookup, hne, ih]

/-- C6 — replace patch: the replace updater keeps every entry's length and
pagination, maps each position either to the updated product (when the
record there carried the updated id) or to the untouched old record, leaves
no record carrying the updated id with any other field values, and writes
the updated product into its detail entry. -/
theorem updatePatch_replaces_exactly (c : QueryCache) (updatedProduct : Product) :
    (updateProductOnSuccess c updatedProduct).lists.length = c.lists.length ∧
    (∀ i e, c.lists.get? i = some (some e) →
      ∃ e2, (updateProductOnSuccess c updatedProduct).lists.get? i
          = some (some e2) ∧
        e2.pagination = e.pagination ∧
        e2.data.length = e.data.length ∧
        (∀ j p, e.data.get? j = some p → p._id = updatedProduct._id →
          e2.data.get? j = some updatedProduct) ∧
        (∀ j p, e.data.get? j = some p → p._id ≠ updatedProduct._id →
          e2.data.get? j = some p) ∧
        (∀ q ∈ e2.data, q._id = updatedProduct._id → q = updatedProduct)) ∧
    List.lookup updatedProduct._id (updateProductOnSuccess c updatedProduct).details
      = some updatedProduct := by
  refine ⟨by simp [updateProductOnSuccess], ?_, ?_⟩
  · intro i e hget
    refine ⟨{ e with data := e.data.map (fun p =>
        if p._id = updatedProduct._id then updatedProduct else p) },
      ?_, rfl, by simp, ?_, ?_, ?_⟩
    · simp only [updateProductOnSuccess, List.get?_map, hget, Option.map_some]
      rfl
    · intro j p hj hid
      rw [List.get?_map, hj]
      simp [hid]
    · intro j p hj hid
      rw [List.get?_map, hj]
      simp [hid]
    · intro q hq hid
      rcases List.mem_map.mp hq with ⟨p, _, rfl⟩
      by_cases hp : p._id = updatedProduct._id
      · rw [if_pos hp]
      · rw [if_neg hp]
        rw [if_neg hp] at hid
        exact absurd hid hp
  · exact lookup_setDetailEntry updatedProduct._id updatedProduct c.details

/-- The product `p1` after an edit (same `_id`, new name/price/timestamp). -/
def updatedP1 : Product :=
  { sampleProduct with
      name := "Widget v2"
      price := JSNum.num 6
      updatedAt := "2024-02-01" }

/-- C6 witness: replacing `p1` in the concrete cache rewrites the `p1`
record in place in its entry, leaves the `p2` record of the other entry
untouched, and updates the `p1` detail entry. -/
theorem updatePatch_replaces_exactly_witness :
    ((updateProductOnSuccess sampleCache updatedP1).lists.get? 0).map
        (Option.map (fun e => e.data.get? 0)) = some (some (some updatedP1)) ∧
    ((updateProductOnSuccess sampleCache updatedP1).lists.get? 2).map
        (Option.map (fun e => e.data.get? 0)) = some (some (some sampleProduct2)) ∧
    List.lookup "p1" (updateProductOnSuccess sampleCache updatedP1).details
      = some updatedP1 := by
  have h := updatePatch_replaces_exactly sampleCache updatedP1
  obtain ⟨e2, hg, _, _, hrep, _, _⟩ := h.2.1 0 entryWithP1 rfl
  obtain ⟨e3, hg3, _, _, _, hkeep3, _⟩ := h.2.1 2 otherEntry rfl
  refine ⟨?_, ?_, h.2.2⟩
  · rw [hg]
    simpa using hrep 0 sampleProduct rfl rfl
  · rw [hg3]
    simpa using hkeep3 0 sampleProduct2 rfl (by decide)

/-- Less-than on a JS number, as the numeric `min` rule compares
(`NaN < m` is false). -/
def jsNumLt (x : JSNum) (q : ℚ) : Bool :=
  match x with
  | JSNum.nan => false
  | JSNum.num n => decide ((n : ℚ) < q)

/-- Create-product form values as react-hook-form holds them when the form
is submitted; the numeric inputs are held as the raw strings of the DOM
inputs. -/
structure CreateForm where
  name : String
  description : String
  sku : String
  category : String
  price : String
  quantity : String
  minStockLevel : String
  images : List String
  deriving DecidableEq, Repr

/-- The body of the create request `onSubmit` builds (`formData`): the form
values with the SKU uppercased. -/
structure CreateRequest where
  name : String
  description : String
  sku : String
  category : String
  price : String
  quantity : String
  minStockLevel : String
  images : List String
  deriving DecidableEq, Repr

/-- The `register('name', ...)` rules in react-hook-form's evaluation order
(required, then the length rules, then the custom validator); the result is
the first failing rule's message. -/
def validateName (v : String) : Option String :=
  if v = "" then some "Product name is required"
  else if 100 < v.length then some "Product name cannot exceed 100 characters"
  else if v.trim.length = 0 then some "Product name cannot be empty"
  else none

/-- The `register('sku', ...)` rules in react-hook-form's evaluation order:
`required` fires on the empty string before `minLength`/`maxLength` are
consulted, then the custom non-blank validator. -/
def validateSku (v : String) : Option String :=
  if v = "" then some "SKU is required"
  else if 50 < v.length then some "SKU cannot exceed 50 characters"
  else if v.length < 3 then some "SKU must be at least 3 characters"
  else if v.trim.length = 0 then some "SKU cannot be empty"
  else none

/-- The `register('description', ...)` rule (optional field). -/
def validateDescription (v : String) : Option String :=
  if 500 < v.length then some "Description cannot exceed 500 characters"
  else none

/-- The `register('category', ...)` rule. -/
def validateCategory (v : String) : Option String :=
  if v = "" then some "Category is required" else none

/-- The `register('price', ...)` rules: required, then `min: 0.01` compared
numerically on the input's value. -/
def validatePrice (v : String) : Option String :=
  if v = "" then some "Price is required"
  else if jsNumLt (parseFloatJS v) (1 / 100) then some "Price must be greater than 0"
  else none

/-- The `register('quantity', ...)` rules: required, then `min: 0`. -/
def validateQuantity (v : String) : Option String :=
  if v = "" then some "Quantity is required"
  else if jsNumLt (parseFloatJS v) 0 then some "Quantity must be 0 or greater"
  else none

/-- The `register('minStockLevel', ...)` rules: required, then `min: 0`. -/
def validateMinStockLevel (v : String) : Option String :=
  if v = "" then some "Minimum stock level is required"
  else if jsNumLt (parseFloatJS v) 0 then some "Minimum stock level must be 0 or greater"
  else none

/-- Field-level messages of a whole-form validation pass, in field order. -/
def formErrors (f : CreateForm) : List String :=
  (validateName f.name).toList ++ (validateSku f.sku).toList ++
  (validateDescription f.description).toList ++ (validateCategory f.category).toList ++
  (validatePrice f.price).toList ++ (validateQuantity f.quantity).toList ++
  (validateMinStockLevel f.minStockLevel).toList

/-- `handleSubmit(onSubmit)` of `CreateProductModal`: only when no field has
a validation error does `onSubmit` run, building the request body with the
SKU uppercased; otherwise no create request is issued at all. -/
def submitCreate (f : CreateForm) : Option CreateRequest :=
  if formErrors f = [] then
    some { name := f.name, description := f.description
           sku := f.sku.toUpper, category := f.category
           price := f.price, quantity := f.quantity
           minStockLevel := f.minStockLevel, images := f.images }
  else none

/-- C9 counterexample: the empty SKU has fewer than 3 characters, yet its
field-level message is `"SKU is required"` (the `required` rule fires
first), not the claimed `"SKU must be at least 3 characters"`. -/
theorem sku_empty_message_cex :
    "".length < 3 ∧
    validateSku "" = some "SKU is required" ∧
    validateSku "" ≠ some "SKU must be at least 3 characters" := by
  exact ⟨by decide, rfl, by decide⟩

/-- C9 (amended): a SKU shorter than 3 characters always fails validation
and blocks the create request; a nonempty short SKU gets the field message
`"SKU must be at least 3 characters"`, while the empty SKU fails the
`required` rule first with `"SKU is required"`; in both cases no create
request is sent for that submission. -/
theorem short_sku_blocks_create (f : CreateForm) (hlen : f.sku.length < 3) :
    (f.sku ≠ "" → validateSku f.sku = some "SKU must be at least 3 characters") ∧
    (f.sku = "" → validateSku f.sku = some "SKU is required") ∧
    submitCreate f = none := by
  have hmsg : ∃ m, validateSku f.sku = some m := by
    by_cases h : f.sku = ""
    · exact ⟨"SKU is required", by simp [validateSku, h]⟩
    · refine ⟨"SKU must be at least 3 characters", ?_⟩
      have h50 : ¬(50 < f.sku.length) := by omega
      simp [validateSku, h, h50, hlen]
  obtain ⟨m, hm⟩ := hmsg
  refine ⟨?_, ?_, ?_⟩
  · intro h
    have h50 : ¬(50 < f.sku.length) := by omega
    simp [validateSku, h, h50, hlen]
  · intro h
    simp [validateSku, h]
  · have hne : formErrors f ≠ [] := by
      simp only [formErrors, hm]
      simp
    simp [submitCreate, hne]

/-- A concrete create-form submission whose SKU is the 2-character `"AB"`. -/
def shortSkuForm : CreateForm :=
  { name := "Mouse", description := "", sku := "AB", category := "Electronics"
    price := "25", quantity := "4", minStockLevel := "2", images := [] }

/-- C9 amended witness: submitting the form with SKU `"AB"` yields the
minimum-length field message and no create request. -/
theorem short_sku_blocks_create_witness :
    validateSku "AB" = some "SKU must be at least 3 characters" ∧
    submitCreate shortSkuForm = none := by
  have h := short_sku_blocks_create shortSkuForm (by decide)
  exact ⟨h.1 (by decide), h.2.2⟩

end InventorySpec
